import Mathlib

/-!
Verification development for the AICC club-website backend
(flask_app.py, config.py): the registration, payment and attendance
subsystem.  Python functions are shallowly embedded as Lean functions;
JSON dicts become structures, file contents become explicit values, and
external effects (payment gateway, QR, mail, clock) become parameters.
All string operations used by the Python code (strip, lower, upper,
single-character split) are re-implemented over the character list of a
string so that every definition is fully executable and kernel-reducible.
-/

namespace AICC

/-! ## String helpers (Python str.strip / str.lower / str.upper / split) -/

/-- Whitespace characters stripped by Python str.strip(). -/
def py_ws (c : Char) : Bool :=
  c = ' ' || c = '\t' || c = '\n' || c = '\x0d' || c = '\x0b' || c = '\x0c'

/-- Python str.strip(): remove leading and trailing whitespace. -/
def py_strip (s : String) : String :=
  ⟨((s.data.dropWhile py_ws).reverse.dropWhile py_ws).reverse⟩

/-- Python str.lower() (ASCII behaviour, which covers all data here). -/
def py_lower (s : String) : String :=
  ⟨s.data.map Char.toLower⟩

/-- Python str.upper() (ASCII behaviour). -/
def py_upper (s : String) : String :=
  ⟨s.data.map Char.toUpper⟩

/-- Split a character list on a separator character; mirrors Python
str.split(sep) for a one-character separator. -/
def splitOnCharAux (sep : Char) : List Char → List (List Char)
  | [] => [[]]
  | a :: rest =>
    match splitOnCharAux sep rest with
    | [] => [[]]
    | h :: t => if a = sep then [] :: h :: t else (a :: h) :: t

/-- Python s.split(sep) for a single-character separator. -/
def py_split (sep : Char) (s : String) : List String :=
  (splitOnCharAux sep s.data).map String.mk

/-- Numeric value of a list of decimal digit characters. -/
def digitsToNat (l : List Char) : Nat :=
  l.foldl (fun n c => n * 10 + (c.toNat - ('0').toNat)) 0

/-! ## Email validation
regex from flask_app.py: a full match of
local at domain dot tld, with local in [a-zA-Z0-9._%+-]+, domain in
[a-zA-Z0-9.-]+, tld in [a-zA-Z]{2,}.  Since neither character class
contains the at sign, a match decomposes the string at its unique at
sign; since the tld class contains no dot, the domain/tld split is at
the final dot after the at sign. -/

def localChar (c : Char) : Bool :=
  c.isAlphanum || c = '.' || c = '_' || c = '%' || c = '+' || c = '-'

def domainChar (c : Char) : Bool :=
  c.isAlphanum || c = '.' || c = '-'

/-- re.match of the registration email pattern (anchored full match). -/
def email_matches (s : String) : Bool :=
  match py_split '@' s with
  | [l, r] =>
    (!l.data.isEmpty) && l.data.all localChar &&
    (match (py_split '.' r).reverse with
     | tld :: revRest =>
       let dom := String.intercalate (String.mk [('.')]) revRest.reverse
       (!revRest.isEmpty) && (!dom.data.isEmpty) && dom.data.all domainChar &&
       tld.data.length ≥ 2 && tld.data.all Char.isAlpha
     | [] => false)
  | _ => false

/-- config.py: ALLOWED_EMAIL_DOMAINS. -/
def ALLOWED_EMAIL_DOMAINS : List String :=
  [("kongu.edu"), ("kongu.ac.in"), ("gmail.com")]

/-- Python: email.split(at)[1].lower(), defined after the regex matched. -/
def email_domain (s : String) : String :=
  match py_split '@' s with
  | [_, d] => py_lower d
  | _ => ("")

def domain_allowed (d : String) : Bool :=
  ALLOWED_EMAIL_DOMAINS.any (fun a => decide (a = d))

def allowed_domains_str : String :=
  String.intercalate (", ") ALLOWED_EMAIL_DOMAINS

/-! ## Data model

A registration is a JSON dict in the source.  We model the keys the
core reads and writes as explicit fields; the free-form custom-field
values (read via data.get(name, default)) live in an association list.
The timestamp and qr_code keys, which no claim touches, are omitted. -/

/-- One participant sub-record (flask_app.py lines 932-936). -/
structure Participant where
  name : String
  roll_no : String
  email : String
deriving DecidableEq

/-- A registration record / submission payload (one Python dict). -/
structure Reg where
  submitter_email : String := ("")
  custom : List (String × String) := []
  num_participants : Option Nat := none
  participants : List Participant := []
  payment_amount : ℚ := 0
  payment_status : String := ("")
  payment_id : Option String := none
  payment_order_id : Option String := none
  registration_id : String := ("")
  attendance_status : String := ("")
  attendance_comment : String := ("")
  participant_attendance : Option (List Bool) := none
  entry_time : Option String := none
  marked_by : Option String := none
  id : Option Nat := none
deriving DecidableEq

/-- Python data.get(key, default-empty-string) on the custom keys. -/
def Reg.get (r : Reg) (key : String) : String :=
  match r.custom.lookup key with
  | some v => v
  | none => ("")

/-- A form-template field definition.  label is Option to keep the
distinction between field.get(label) or name (falsy check) and
field.get(label, name) (missing-key check), both used in the source. -/
structure Field where
  name : String := ("")
  label : Option String := none
  ftype : String := ("")
  required : Bool := false
  funique : Bool := false
deriving DecidableEq

/-- Python: field.get(label) or field_name. -/
def Field.label_or_name (f : Field) : String :=
  match f.label with
  | some l => if l = ("") then f.name else l
  | none => f.name

/-- Python: field.get(label, field_name). -/
def Field.label_getD (f : Field) : String :=
  f.label.getD f.name

/-- A form template (data/form_templates.json entry). -/
structure Template where
  active : Bool := false
  min_participants : Nat := 1
  max_participants : Nat := 1
  custom_fields : List Field := []
  fields : List Field := []
  payment_enabled : Bool := false
  payment_amount : ℚ := 0
deriving DecidableEq

/-- The registration_deadline sub-dict of an event; a present dict with
a falsy date key behaves like an absent one, so date = empty string
models deadline_info.get(date) being falsy. -/
structure Deadline where
  date : String := ("")
deriving DecidableEq

/-- An event (the fields the registration endpoint reads). -/
structure Event where
  registration_type : String := ("")
  allow_registration : Option Bool := none
  registration_deadline : Option Deadline := none
deriving DecidableEq

/-- A civil date, as produced by datetime.strptime with %Y-%m-%d. -/
structure Date where
  year : Nat
  month : Nat
  day : Nat
deriving DecidableEq

/-- Python date comparison deadline.date() < today (lexicographic). -/
def Date.before (a b : Date) : Bool :=
  a.year < b.year ||
  (a.year = b.year && (a.month < b.month ||
    (a.month = b.month && a.day < b.day)))

def is_leap (y : Nat) : Bool :=
  (y % 4 = 0 && y % 100 ≠ 0) || y % 400 = 0

def days_in_month (y m : Nat) : Nat :=
  if m = 2 then (if is_leap y then 29 else 28)
  else if m = 4 || m = 6 || m = 9 || m = 11 then 30
  else 31

/-- The %Y field of the CPython strptime regex: exactly four decimal
digits. -/
def year_field (ys : List Char) : Bool :=
  ys.length = 4 && ys.all Char.isDigit

/-- The %m field of the CPython strptime regex, the alternation
1[0-2] or 0[1-9] or [1-9]: one or two decimal digits with value
1..12 and no space padding. -/
def month_field (ms : List Char) : Bool :=
  ms.all Char.isDigit && 1 ≤ ms.length && ms.length ≤ 2 &&
  1 ≤ digitsToNat ms && digitsToNat ms ≤ 12

/-- The %d field of the CPython strptime regex, the alternation
3[01] or [12]d or 0[1-9] or [1-9] or space[1-9]: one or two decimal
digits with value 1..31, or a space followed by one digit 1..9. -/
def day_field (ds : List Char) : Bool :=
  (ds.all Char.isDigit && 1 ≤ ds.length && ds.length ≤ 2 &&
    1 ≤ digitsToNat ds && digitsToNat ds ≤ 31) ||
  (match ds with
   | [c1, c2] => c1 = ' ' && c2.isDigit && c2 ≠ '0'
   | _ => false)

/-- Numeric value of a possibly space-padded day field. -/
def day_value (ds : List Char) : Nat :=
  digitsToNat (ds.dropWhile (fun c => c = ' '))

/-- datetime.strptime(s, %Y-%m-%d): the anchored full-match regex
(exactly-4-digit year, 1-2 digit month 1..12, day 01..31 / 1..9 /
space-padded 1..9; no field pattern contains a dash, so matching is
splitting on the dashes), followed by the datetime constructor checks
(year in 1..9999, day within the month, Gregorian leap years);
returns none exactly when strptime or datetime raises ValueError,
which the caller swallows. -/
def parse_date (s : String) : Option Date :=
  match py_split '-' s with
  | [ys, ms, ds] =>
    if year_field ys.data && month_field ms.data && day_field ds.data then
      let y := digitsToNat ys.data
      let m := digitsToNat ms.data
      let d := day_value ds.data
      if 1 ≤ y && y ≤ 9999 && 1 ≤ m && m ≤ 12 && 1 ≤ d && d ≤ days_in_month y m then
        some ⟨y, m, d⟩
      else none
    else none
  | _ => none

/-! ## Record Store (flask_app.py lines 76-207) -/

/-- flask_app.py: _MAX_FILE_LOCKS = 100. -/
def _MAX_FILE_LOCKS : Nat := 100

/-- The lock table: insertion-ordered (path, currently-held) pairs;
Python dicts preserve insertion order, which the eviction loop uses. -/
abbrev LockTable := List (String × Bool)

/-- The to_remove collection loop of get_file_lock (lines 87-92):
walk the items in order, collect paths whose lock is not held, and
break once len(table) - len(to_remove) drops below half the ceiling
(checked after appending). -/
def collect_unheld (total : Nat) : LockTable → Nat → List String
  | [], _ => []
  | (path, held) :: rest, removed =>
    if held then collect_unheld total rest removed
    else if total - (removed + 1) < _MAX_FILE_LOCKS / 2 then [path]
    else path :: collect_unheld total rest (removed + 1)

/-- get_file_lock (lines 80-96), restricted to its effect on the lock
table: an existing path leaves the table unchanged; a fresh path first
runs the eviction pass when the table is at or above the ceiling, then
appends a new (unheld) lock entry. -/
def get_file_lock_table (table : LockTable) (filepath : String) : LockTable :=
  if table.any (fun e => decide (e.1 = filepath)) then table
  else
    let table1 :=
      if table.length ≥ _MAX_FILE_LOCKS then
        let to_remove := collect_unheld table.length table 0
        table.filter (fun e => decide (e.1 ∉ to_remove))
      else table
    table1 ++ [(filepath, false)]

/-- The state of one JSON file on disk: absent, present but failing to
parse as JSON, or present with a parsed list of records. -/
inductive FileState
  | absent
  | invalid
  | valid (l : List Reg)
deriving DecidableEq

/-- safe_json_read (lines 98-118): absent file gives an empty list; a
parse/IO failure falls back to the .backup sibling, and a failing (or
absent) backup degrades to an empty list.  Totality of this function is
the never-raises guarantee. -/
def safe_json_read (fs : String → FileState) (filepath : String) : List Reg :=
  match fs filepath with
  | .absent => []
  | .valid l => l
  | .invalid =>
    match fs (filepath ++ (".backup")) with
    | .valid l => l
    | _ => []

/-- atomic_add_registration (lines 164-207) on the content of one
registration file (none = file absent; a file that exists but fails to
parse behaves as an empty list, line 188, and is treated as the parsed
list here).  Returns the Python triple (success, error_msg,
registrations) together with the new file content; the disk write is
assumed to succeed (disk errors are outside the model). -/
def atomic_add_registration (stored : Option (List Reg)) (new_registration : Reg)
    (unique_check_fn : Option (List Reg → Reg → Option String)) :
    (Bool × Option String × List Reg) × Option (List Reg) :=
  let registrations := stored.getD []
  let checked :=
    match unique_check_fn with
    | some f => f registrations new_registration
    | none => none
  match checked with
  | some error_msg => ((false, some error_msg, registrations), stored)
  | none =>
    let newReg := { new_registration with id := some (registrations.length + 1) }
    let registrations1 := registrations ++ [newReg]
    ((true, none, registrations1), some registrations1)

/-! ## Form Template Validator and registration endpoint
(api_register_event, flask_app.py lines 831-1207). -/

/-- The JSON response of the registration endpoint, reduced to the
fields the spec talks about.  errDetails carries the error plus details
keys; errMissing carries the error plus missing list; payment is the
payment_required envelope (order id and echoed registration_data); ok
is the success envelope with its registration_id (credential). -/
inductive RegResp
  | err (msg : String)
  | errDetails (msg details : String)
  | errMissing (msg : String) (missing : List String)
  | payment (order_id : String) (registration_data : Reg)
  | ok (registration_id : String)
deriving DecidableEq

/-- The per-slot participant checks (lines 900-930): trimmed name, roll
and email must be non-empty, the email must match the pattern and have
an allowed domain; the first failing check yields the error text. -/
def participant_error (data : Reg) (i : Nat) : Option String :=
  let participant_name := py_strip (data.get (("participant_") ++ Nat.repr i ++ ("_name")))
  let participant_roll := py_strip (data.get (("participant_") ++ Nat.repr i ++ ("_roll")))
  let participant_email := py_strip (data.get (("participant_") ++ Nat.repr i ++ ("_email")))
  if participant_name = ("") then
    some (("Participant ") ++ Nat.repr i ++ (" name is required"))
  else if participant_roll = ("") then
    some (("Participant ") ++ Nat.repr i ++ (" roll number is required"))
  else if participant_email = ("") then
    some (("Participant ") ++ Nat.repr i ++ (" email is required"))
  else if email_matches participant_email = false then
    some (("Participant ") ++ Nat.repr i ++ (" has invalid email format"))
  else if domain_allowed (email_domain participant_email) = false then
    some (("Participant ") ++ Nat.repr i ++ (" email domain not allowed. Please use one of: ") ++ allowed_domains_str)
  else none

/-- The validated participant sub-record built for slot i. -/
def participant_of (data : Reg) (i : Nat) : Participant :=
  { name := py_strip (data.get (("participant_") ++ Nat.repr i ++ ("_name")))
    roll_no := py_strip (data.get (("participant_") ++ Nat.repr i ++ ("_roll")))
    email := py_strip (data.get (("participant_") ++ Nat.repr i ++ ("_email"))) }

/-- The for-loop over slots i, i+1, ..., i+k-1 (lines 899-936): the
first failing slot aborts with its error; otherwise the collected
participant list is returned. -/
def validate_participants (data : Reg) : Nat → Nat → Except String (List Participant)
  | _, 0 => .ok []
  | i, k + 1 =>
    match participant_error data i with
    | some e => .error e
    | none =>
      match validate_participants data (i + 1) k with
      | .error e => .error e
      | .ok ps => .ok (participant_of data i :: ps)

/-- The participant block (lines 885-940), guarded by the truthiness of
min_participants and max_participants; on success the participants and
num_participants keys are stored back into the submission dict. -/
def participants_step (t : Template) (data : Reg) : Except RegResp Reg :=
  if t.min_participants ≠ 0 ∧ t.max_participants ≠ 0 then
    let num_participants := data.num_participants.getD t.min_participants
    if num_participants < t.min_participants ∨ num_participants > t.max_participants then
      .error (.err (("Number of participants must be between ") ++
        Nat.repr t.min_participants ++ (" and ") ++ Nat.repr t.max_participants))
    else
      match validate_participants data 1 num_participants with
      | .error e => .error (.err e)
      | .ok ps => .ok { data with participants := ps, num_participants := some num_participants }
  else .ok data

/-- One required-field pass (lines 944-957, run once over custom_fields
and once over the legacy fields list): a required field whose name is
falsy or whose trimmed value is blank contributes field.get(label) or
name to the missing list, in order. -/
def missing_required (data : Reg) (fields : List Field) : List String :=
  (fields.filter (fun field =>
    field.required && (decide (field.name = ("")) ||
      decide (py_strip (data.get field.name) = ("")))
    )).map Field.label_or_name

/-- The email-typed field pass over the legacy fields list (lines
966-985): a non-blank value must match the pattern and carry an allowed
domain; the first offending field yields the error. -/
def email_fields_error (data : Reg) (fields : List Field) : Option String :=
  fields.findSome? (fun field =>
    if field.ftype = ("email") then
      let email_value := py_strip (data.get field.name)
      if email_value ≠ ("") then
        if email_matches email_value = false then
          some (("Invalid email format for ") ++ field.label_getD)
        else if domain_allowed (email_domain email_value) = false then
          some (("Email domain not allowed. Please use one of: ") ++ allowed_domains_str)
        else none
      else none
    else none)

/-- Template validation (lines 880-985): inactive template, participant
block, required custom and legacy fields (all missing labels collected
together), then email-typed legacy fields. -/
def validate_template (tmpl : Option Template) (data : Reg) : Except RegResp Reg :=
  match tmpl with
  | none => .ok data
  | some t =>
    if t.active = false then .error (.err ("Registration form is inactive"))
    else
      match participants_step t data with
      | .error r => .error r
      | .ok data1 =>
        let missing_fields := missing_required data1 t.custom_fields ++
          missing_required data1 t.fields
        if missing_fields ≠ [] then
          .error (.errMissing ("Missing required fields") missing_fields)
        else
          match email_fields_error data1 t.fields with
          | some e => .error (.err e)
          | none => .ok data1

/-- The event checks (lines 1006-1028): registration type must be
internal, the admin gate must not be explicitly False, and a parseable
non-TBA deadline strictly before today rejects; an unparseable date is
swallowed by the except ValueError: pass. -/
def event_gate (event : Event) (today : Date) : Option String :=
  if event.registration_type ≠ ("internal") then
    some ("Registration is not enabled for this event")
  else if event.allow_registration = some false then
    some ("Registration is currently closed for this event")
  else
    match event.registration_deadline with
    | none => none
    | some deadline_info =>
      if deadline_info.date ≠ ("") then
        if py_upper deadline_info.date ≠ ("TBA") then
          match parse_date deadline_info.date with
          | some deadline => if deadline.before today then some ("Registration deadline has passed") else none
          | none => none
        else none
      else none

/-- The server-side fields stamped onto the submission before any
persistence (lines 1064-1071); timestamp and qr_code are omitted. -/
def build_registration (tmpl : Option Template) (registration_uuid : String) (data : Reg) : Reg :=
  { data with
    registration_id := registration_uuid
    payment_status :=
      match tmpl with
      | some t => if t.payment_enabled then ("pending") else ("not_required")
      | none => ("not_required")
    attendance_status := ("not_entered")
    entry_time := none
    marked_by := none }

/-- check_duplicates (lines 1083-1104): the trimmed, lowered submitter
email of the new record must not already occur (same normalisation) in
the stored list; then every unique email-typed field of the legacy
fields list (other than submitter_email) is checked the same way. -/
def check_duplicates (template_definition : Option Template)
    (registrations : List Reg) (new_reg : Reg) : Option String :=
  let submitter_email := py_lower (py_strip new_reg.submitter_email)
  if submitter_email ≠ ("") ∧ registrations.any (fun reg =>
      decide (py_lower (py_strip reg.submitter_email) = submitter_email)) then
    some (("Email already registered: ") ++ submitter_email)
  else
    match template_definition with
    | none => none
    | some t =>
      t.fields.findSome? (fun field =>
        if field.ftype = ("email") && field.funique then
          if field.name = ("submitter_email") then none
          else
            let email_value := py_lower (py_strip (new_reg.get field.name))
            if email_value ≠ ("") ∧ registrations.any (fun reg =>
                decide (py_lower (py_strip (reg.get field.name)) = email_value)) then
              some (field.label_getD ++ (" already registered: ") ++ email_value)
            else none
        else none)

/-- The atomic save at the end of the no-payment path (lines 1175-1203). -/
def finish_registration (tmpl : Option Template) (registration_uuid : String)
    (data : Reg) (stored : Option (List Reg)) : RegResp × Option (List Reg) :=
  match atomic_add_registration stored data (some (check_duplicates tmpl)) with
  | ((true, _, _), stored1) => (.ok registration_uuid, stored1)
  | ((false, error_msg, _), stored1) =>
    (.errDetails ("Registration failed") (error_msg.getD ("")), stored1)

/-- The payment branch and the final atomic save (lines 1107-1203):
with a payment-enabled template and a positive amount, a missing phone
or a failed order creation rejects and nothing is written; a created
order is returned to the caller together with the full registration
payload (payment_amount added), again without writing; in every other
case the registration is saved atomically. -/
def payment_or_save (tmpl : Option Template) (order_result : Option String)
    (registration_uuid : String) (data2 : Reg) (stored : Option (List Reg)) :
    RegResp × Option (List Reg) :=
  match tmpl with
  | some t =>
    if t.payment_enabled then
      if t.payment_amount > 0 then
        let customer_phone :=
          match data2.custom.lookup ("phone") with
          | some v => v
          | none => data2.get ("team_leader_phone")
        if py_strip customer_phone = ("") then
          (.errDetails ("Phone number is required for payment") ("Please provide a valid phone number"), stored)
        else
          match order_result with
          | some order_id =>
            let data3 := { data2 with payment_amount := t.payment_amount }
            (.payment order_id data3, stored)
          | none =>
            (.errDetails ("Failed to create payment order") ("Payment gateway error. Please contact support."), stored)
      else finish_registration tmpl registration_uuid data2 stored
    else finish_registration tmpl registration_uuid data2 stored
  | none => finish_registration tmpl registration_uuid data2 stored

/-- api_register_event (lines 831-1207) as a function of: today's IST
date, the resolved template and event (the file lookups of lines
866-878 and 988-1004 are parameters), the outcome of
create_razorpay_order (some order_id on success, none on a gateway
error or exception), the generated UUID, the submission dict, and the
current content of the registration file.  Returns the response and the
new file content.  The events.json write-back of lines 1049-1055
touches a different file and is outside this state. -/
def api_register_event (today : Date) (tmpl : Option Template) (event : Option Event)
    (order_result : Option String) (registration_uuid : String)
    (data : Reg) (stored : Option (List Reg)) : RegResp × Option (List Reg) :=
  let submitter_email := py_strip data.submitter_email
  if submitter_email = ("") then
    (.errDetails ("Submitter email is required") ("Please provide your email address"), stored)
  else if email_matches submitter_email = false then
    (.errDetails ("Invalid email format") ("Please provide a valid email address"), stored)
  else if domain_allowed (email_domain submitter_email) = false then
    (.err (("Email domain not allowed. Please use one of: ") ++ allowed_domains_str), stored)
  else
    match validate_template tmpl data with
    | .error resp => (resp, stored)
    | .ok data1 =>
      match (match event with
             | some ev => event_gate ev today
             | none => none) with
      | some msg => (.err msg, stored)
      | none =>
        payment_or_save tmpl order_result registration_uuid
          (build_registration tmpl registration_uuid data1) stored

/-! ## Payment verification (payment_verify, flask_app.py lines 1210-1379) -/

/-- The gateway's server-to-server payment record (a 200 response from
the payments endpoint); a non-200 response or request exception is the
none case of the gateway parameter below. -/
structure GatewayPayment where
  status : String := ("")
  order_id : String := ("")
  amount : Int := 0
deriving DecidableEq

/-- The response envelope of the payment-verification endpoint. -/
inductive PVResp
  | err (msg : String)
  | ok (registration_id : String)
deriving DecidableEq

/-- check_payment_duplicates (lines 1334-1342): the first stored record
reusing the same gateway payment id, or (interleaved, per record)
carrying the same lowered submitter email, rejects. -/
def check_payment_duplicates (razorpay_payment_id : String)
    (registrations : List Reg) (new_reg : Reg) : Option String :=
  registrations.findSome? (fun reg =>
    if reg.payment_id = some razorpay_payment_id then
      some ("Payment already processed")
    else if py_lower reg.submitter_email = py_lower new_reg.submitter_email then
      some ("Email already registered")
    else none)

/-- payment_verify (lines 1210-1379).  hmac_sha256 abstracts the HMAC
primitive (hexdigest of HMAC-SHA256 keyed by its first argument);
to_minor abstracts int(float(amount) * 100) of line 1268, whose exact
integer result depends on the binary floating-point rounding of the
stored amount, so the conversion is a parameter of the model exactly
like the HMAC primitive;
gateway is the payments-API response; fresh_uuid is the UUID generated
when registration_data carries no registration_id.  Missing request
fields are empty strings / none.  Returns the response and the new
content of the registration file. -/
def payment_verify (hmac_sha256 : String → String → String) (to_minor : ℚ → Int)
    (key_secret : String)
    (razorpay_payment_id razorpay_order_id razorpay_signature : String)
    (registration_data : Option Reg) (registration_file : Option String)
    (gateway : Option GatewayPayment) (fresh_uuid : String)
    (stored : Option (List Reg)) : PVResp × Option (List Reg) :=
  if razorpay_payment_id = ("") ∨ razorpay_order_id = ("") ∨ razorpay_signature = ("") then
    (.err ("Missing payment details"), stored)
  else
    match registration_data with
    | none => (.err ("Missing registration data"), stored)
    | some rdata =>
      let expected_signature :=
        hmac_sha256 key_secret (razorpay_order_id ++ ("|") ++ razorpay_payment_id)
      if expected_signature ≠ razorpay_signature then
        (.err ("Invalid payment signature"), stored)
      else
        match gateway with
        | none => (.err ("Unable to verify payment with Razorpay"), stored)
        | some payment_details =>
          if payment_details.status ≠ ("captured") then
            (.err ("Payment not captured"), stored)
          else if payment_details.order_id ≠ razorpay_order_id then
            (.err ("Order ID mismatch"), stored)
          else if to_minor rdata.payment_amount ≠ payment_details.amount then
            (.err ("Payment amount mismatch"), stored)
          else
            match registration_file with
            | none => (.err ("Missing registration file"), stored)
            | some _ =>
              let rdata1 := { rdata with
                payment_status := ("completed")
                payment_id := some razorpay_payment_id
                payment_order_id := some razorpay_order_id
                attendance_status := ("not_entered")
                entry_time := none
                marked_by := none }
              let registration_uuid :=
                if rdata1.registration_id = ("") then fresh_uuid else rdata1.registration_id
              let rdata2 := { rdata1 with registration_id := registration_uuid }
              match atomic_add_registration stored rdata2
                  (some (check_payment_duplicates razorpay_payment_id)) with
              | ((true, _, _), stored1) => (.ok registration_uuid, stored1)
              | ((false, error_msg, _), stored1) => (.err (error_msg.getD ("")), stored1)

/-! ## Attendance Ledger (api_admin_mark_entry lines 2300-2366 and
admin_mark_entry lines 3684-3769; the update applied to the matched
record is identical in both, with marked_by = admin for the API route
and the session admin username for the form route). -/

/-- The mutation applied to the matched registration (lines 2339-2355 /
3727-3757).  participants mode requires a truthy (present, non-empty)
flags array; otherwise the legacy full/partial branch runs.  entry_time
and marked_by are stamped in every mode. -/
def apply_mark (reg : Reg) (attendance_type attendance_comment : String)
    (participant_attendance : Option (List Bool)) (now marker : String) : Reg :=
  let reg1 :=
    if attendance_type = ("participants") ∧ participant_attendance.getD [] ≠ [] then
      let flags := participant_attendance.getD []
      let total := flags.length
      let present := flags.countP (fun p => p)
      { reg with
        participant_attendance := some flags
        attendance_status :=
          if present = total then ("entered")
          else if present > 0 then ("partially_present")
          else ("not_entered")
        attendance_comment := Nat.repr present ++ ("/") ++ Nat.repr total ++ (" participants present") }
    else
      { reg with
        attendance_status :=
          if attendance_type = ("partial") then ("partially_present") else ("entered")
        attendance_comment := attendance_comment }
  { reg1 with entry_time := some now, marked_by := some marker }

/-- The search-and-update loop (lines 2337-2357 / 3722-3759): the first
record whose registration_id equals regid and whose lowered
submitter_email equals the lowered request email is updated and the
loop breaks; none means updated stayed False (a 404). -/
def mark_entry_update (registrations : List Reg) (regid email : String)
    (attendance_type attendance_comment : String)
    (participant_attendance : Option (List Bool)) (now marker : String) :
    Option (List Reg) :=
  match registrations with
  | [] => none
  | reg :: rest =>
    if reg.registration_id = regid ∧ py_lower reg.submitter_email = py_lower email then
      some (apply_mark reg attendance_type attendance_comment participant_attendance now marker :: rest)
    else
      match mark_entry_update rest regid email attendance_type attendance_comment
          participant_attendance now marker with
      | some rest1 => some (reg :: rest1)
      | none => none

/-! ## Derived definitions used by the claim statements -/

/-- Python email.strip().lower(), the normalisation used by the
duplicate check. -/
def norm_email (s : String) : String :=
  py_lower (py_strip s)

/-- N sequential calls to atomic_add_registration against one file,
each with the registration duplicate predicate of a template-less form
(which rejects exactly equal normalised submitter emails): returns the
conjunction of all success flags and the final file content. -/
def add_many (stored : Option (List Reg)) : List Reg → Bool × Option (List Reg)
  | [] => (true, stored)
  | r :: rest =>
    let step := atomic_add_registration stored r (some (check_duplicates none))
    let next := add_many step.2 rest
    (step.1.1 && next.1, next.2)

/-- The records of a batch with ids start+1, start+2, ... assigned. -/
def with_ids (start : Nat) : List Reg → List Reg
  | [] => []
  | r :: rest => { r with id := some (start + 1) } :: with_ids (start + 1) rest

/-! ## Witness fixtures (concrete values used only by witnesses and
counterexamples) -/

def w_email1 : String := ("a@kongu.edu")
def w_email2 : String := ("b@kongu.edu")

def w_reg1 : Reg := { submitter_email := w_email1 }
def w_reg2 : Reg := { submitter_email := w_email2 }

def w_mark_reg : Reg := { submitter_email := w_email1, registration_id := ("RID1") }

def w_t5 : Template :=
  { active := true
    min_participants := 0
    max_participants := 0
    custom_fields := [{ name := ("team"), label := some ("Team Name"), required := true }]
    fields := [] }

def w_t3 : Template :=
  { active := true
    min_participants := 0
    max_participants := 0
    payment_enabled := true
    payment_amount := 100 }

def w_ev4 : Event :=
  { registration_type := ("internal")
    registration_deadline := some { date := ("2025-01-10") } }

def w_t10 : Template :=
  { active := true
    min_participants := 0
    max_participants := 0
    payment_enabled := true
    payment_amount := 0 }

def C8_table : LockTable := (List.range 100).map (fun i => (("p") ++ Nat.repr i, true))

def fs_example : String → FileState := fun p =>
  if p = ("f") then .invalid
  else if p = (("f") ++ (".backup")) then .valid [w_reg1]
  else .absent

/-! ## Helper lemmas -/

section Lemmas

/-- A string starting with prefix a cannot equal b when the first
a.data.length characters of b differ from a.data. -/
theorem append_ne_of_take (a x b : String)
    (h : b.data.take a.data.length ≠ a.data) : a ++ x ≠ b := by
  intro he
  apply h
  rw [← he]
  show (a.data ++ x.data).take a.data.length = a.data
  exact List.take_left a.data x.data

/-- The duplicate predicate never fires against an empty stored list. -/
theorem check_duplicates_nil (tmpl : Option Template) (r : Reg) :
    check_duplicates tmpl [] r = none := by
  unfold check_duplicates
  cases tmpl with
  | none => simp
  | some t =>
    simp only [List.any_nil, Bool.false_eq_true, and_false, if_false]
    rw [List.findSome?_eq_none_iff]
    intro field _
    split
    · split
      · rfl
      · simp
    · rfl

/-- The duplicate predicate fires with the conflict message whenever the
new record carries a non-empty normalised submitter email already
present (same normalisation) in the stored list. -/
theorem check_duplicates_hit (tmpl : Option Template) (l : List Reg) (r : Reg)
    (hne : norm_email r.submitter_email ≠ (""))
    (hdup : ∃ a ∈ l, norm_email a.submitter_email = norm_email r.submitter_email) :
    check_duplicates tmpl l r =
      some (("Email already registered: ") ++ norm_email r.submitter_email) := by
  unfold check_duplicates
  have hany : l.any (fun reg => decide (py_lower (py_strip reg.submitter_email) =
      py_lower (py_strip r.submitter_email))) = true := by
    rw [List.any_eq_true]
    obtain ⟨a, ha, he⟩ := hdup
    exact ⟨a, ha, by simpa [norm_email] using he⟩
  simp only [norm_email] at hne
  simp [hany, hne, norm_email]

/-- with_ids preserves the batch length. -/
theorem with_ids_length (start : Nat) (l : List Reg) :
    (with_ids start l).length = l.length := by
  induction l generalizing start with
  | nil => rfl
  | cons r rest ih => simp [with_ids, ih]

/-- Element k of a with_ids batch carries id start + k + 1. -/
theorem with_ids_id (start : Nat) (l : List Reg) :
    ∀ (k : Nat) (hk : k < (with_ids start l).length),
      ((with_ids start l).get ⟨k, hk⟩).id = some (start + k + 1) := by
  induction l generalizing start with
  | nil => intro k hk; simp [with_ids] at hk
  | cons r rest ih =>
    intro k hk
    cases k with
    | zero => simp [with_ids]
    | succ k2 =>
      show ((({ r with id := some (start + 1) } : Reg) ::
        with_ids (start + 1) rest).get ⟨k2 + 1, hk⟩).id = some (start + (k2 + 1) + 1)
      rw [List.get_cons_succ]
      rw [ih (start + 1) k2 _]
      simp only [Option.some.injEq]
      omega

/-- Sequential atomic appends with pairwise-distinct fresh emails all
succeed and extend the file by the batch with consecutive ids. -/
theorem add_many_go (inputs : List Reg) :
    ∀ acc : List Reg,
      inputs.Pairwise (fun a b => norm_email a.submitter_email ≠ norm_email b.submitter_email) →
      (∀ r ∈ inputs, norm_email r.submitter_email ≠ ("") →
        ∀ a ∈ acc, norm_email a.submitter_email ≠ norm_email r.submitter_email) →
      add_many (some acc) inputs = (true, some (acc ++ with_ids acc.length inputs)) := by
  induction inputs with
  | nil => intro acc _ _; simp [add_many, with_ids]
  | cons r rest ih =>
    intro acc hpw hfresh
    have hcheck : check_duplicates none acc r = none := by
      unfold check_duplicates
      by_cases hre : norm_email r.submitter_email = ("")
      · simp only [norm_email] at hre
        simp [hre]
      · have hany : acc.any (fun reg => decide (py_lower (py_strip reg.submitter_email) =
            py_lower (py_strip r.submitter_email))) = false := by
          rw [List.any_eq_false]
          intro a ha
          simpa [norm_email] using hfresh r (by simp) hre a ha
        simp [hany]
    have hstep : atomic_add_registration (some acc) r (some (check_duplicates none)) =
        ((true, none, acc ++ [{ r with id := some (acc.length + 1) }]),
          some (acc ++ [{ r with id := some (acc.length + 1) }])) := by
      simp [atomic_add_registration, hcheck]
    have hpw2 := (List.pairwise_cons.mp hpw).2
    have hhd := (List.pairwise_cons.mp hpw).1
    have hih := ih (acc ++ [{ r with id := some (acc.length + 1) }]) hpw2 (by
      intro r2 hr2 hne2 a ha
      rcases List.mem_append.mp ha with h | h
      · exact hfresh r2 (by simp [hr2]) hne2 a h
      · have ha2 : a = { r with id := some (acc.length + 1) } := by simpa using h
        subst ha2
        simpa using hhd r2 hr2)
    unfold add_many
    simp only [hstep]
    rw [hih]
    simp [with_ids, List.append_assoc]

/-- The mark-entry loop updates exactly the first matching record. -/
theorem mark_entry_update_set (regid email t c : String) (pa : Option (List Bool))
    (now marker : String) :
    ∀ (regs : List Reg) (j : Nat) (hj : j < regs.length),
      ((regs.get ⟨j, hj⟩).registration_id = regid ∧
        py_lower (regs.get ⟨j, hj⟩).submitter_email = py_lower email) →
      (∀ i (hi : i < j), ¬ ((regs.get ⟨i, Nat.lt_trans hi hj⟩).registration_id = regid ∧
        py_lower (regs.get ⟨i, Nat.lt_trans hi hj⟩).submitter_email = py_lower email)) →
      mark_entry_update regs regid email t c pa now marker =
        some (regs.set j (apply_mark (regs.get ⟨j, hj⟩) t c pa now marker)) := by
  intro regs
  induction regs with
  | nil => intro j hj; exact absurd hj (Nat.not_lt_zero j)
  | cons reg rest ih =>
    intro j hj hmatch hfirst
    cases j with
    | zero =>
      unfold mark_entry_update
      rw [if_pos (show reg.registration_id = regid ∧
        py_lower reg.submitter_email = py_lower email from hmatch)]
      rfl
    | succ j2 =>
      have hj2 : j2 < rest.length := Nat.lt_of_succ_lt_succ hj
      have h0 : ¬ (reg.registration_id = regid ∧
          py_lower reg.submitter_email = py_lower email) :=
        hfirst 0 (Nat.succ_pos j2)
      have hmatch2 : (rest.get ⟨j2, hj2⟩).registration_id = regid ∧
          py_lower (rest.get ⟨j2, hj2⟩).submitter_email = py_lower email := hmatch
      have hfirst2 : ∀ i (hi : i < j2),
          ¬ ((rest.get ⟨i, Nat.lt_trans hi hj2⟩).registration_id = regid ∧
            py_lower (rest.get ⟨i, Nat.lt_trans hi hj2⟩).submitter_email = py_lower email) :=
        fun i hi => hfirst (i + 1) (Nat.succ_lt_succ hi)
      unfold mark_entry_update
      rw [if_neg h0, ih j2 hj2 hmatch2 hfirst2]
      rfl

/-- A participant validation message never equals the deadline message. -/
theorem participant_prefix_ne (x : String) :
    ("Participant ") ++ x ≠ ("Registration deadline has passed") :=
  append_ne_of_take _ x _ (by decide)

/-- A participant-count message never equals the deadline message. -/
theorem number_prefix_ne (x : String) :
    ("Number of participants must be between ") ++ x ≠
      ("Registration deadline has passed") :=
  append_ne_of_take _ x _ (by decide)

/-- An email-format message never equals the deadline message. -/
theorem invalid_email_prefix_ne (x : String) :
    ("Invalid email format for ") ++ x ≠ ("Registration deadline has passed") :=
  append_ne_of_take _ x _ (by decide)

/-- A domain message never equals the deadline message. -/
theorem domain_prefix_ne (x : String) :
    ("Email domain not allowed. Please use one of: ") ++ x ≠
      ("Registration deadline has passed") :=
  append_ne_of_take _ x _ (by decide)

/-- Every participant_error message starts with the Participant tag. -/
theorem participant_error_prefix (data : Reg) (i : Nat) (m : String)
    (h : participant_error data i = some m) :
    ∃ x, m = ("Participant ") ++ x := by
  unfold participant_error at h
  dsimp only at h
  split_ifs at h
  all_goals
    first
      | exact Option.noConfusion h
      | (cases Option.some.inj h; exact ⟨_, (String.append_assoc _ _ _)⟩)

/-- Every validate_participants error is some slot's participant_error. -/
theorem validate_participants_err (data : Reg) :
    ∀ (k i : Nat) (m : String), validate_participants data i k = .error m →
      ∃ j, participant_error data j = some m := by
  intro k
  induction k with
  | zero => intro i m h; exact Except.noConfusion h
  | succ k2 ih =>
    intro i m h
    unfold validate_participants at h
    cases hpe : participant_error data i with
    | some e =>
      rw [hpe] at h
      cases Except.error.inj h
      exact ⟨i, hpe⟩
    | none =>
      rw [hpe] at h
      cases hr : validate_participants data (i + 1) k2 with
      | error e =>
        rw [hr] at h
        cases Except.error.inj h
        exact ih (i + 1) _ hr
      | ok ps => rw [hr] at h; exact Except.noConfusion h

/-- Every participants_step rejection is a count message or a
participant message. -/
theorem participants_step_err (t : Template) (data : Reg) (r : RegResp)
    (h : participants_step t data = .error r) :
    (∃ x, r = .err (("Number of participants must be between ") ++ x)) ∨
    (∃ m, r = .err m ∧ ∃ x, m = ("Participant ") ++ x) := by
  unfold participants_step at h
  dsimp only at h
  split_ifs at h
  · obtain heq := (Except.error.inj h).symm
    subst heq
    refine Or.inl ⟨Nat.repr t.min_participants ++ ((" and ") ++ Nat.repr t.max_participants), ?_⟩
    simp only [String.append_assoc]
  · revert h
    cases hv : validate_participants data 1 (data.num_participants.getD t.min_participants) with
    | error e =>
      intro h
      obtain heq := (Except.error.inj h).symm
      subst heq
      obtain ⟨j, hj⟩ := validate_participants_err data _ 1 e hv
      exact Or.inr ⟨e, rfl, participant_error_prefix data j e hj⟩
    | ok ps => intro h; exact Except.noConfusion h

/-- Every email_fields_error message is a format or a domain message. -/
theorem email_fields_error_msgs (data : Reg) (fields : List Field) (m : String)
    (h : email_fields_error data fields = some m) :
    (∃ x, m = ("Invalid email format for ") ++ x) ∨
      m = ("Email domain not allowed. Please use one of: ") ++ allowed_domains_str := by
  unfold email_fields_error at h
  obtain ⟨f, hf, hsome⟩ := List.exists_of_findSome?_eq_some h
  dsimp only at hsome
  split_ifs at hsome
  · cases Option.some.inj hsome
    exact Or.inl ⟨_, rfl⟩
  · cases Option.some.inj hsome
    exact Or.inr rfl

/-- No validate_template rejection carries the deadline message. -/
theorem validate_template_no_deadline (tmpl : Option Template) (data : Reg) (r : RegResp)
    (h : validate_template tmpl data = .error r) :
    r ≠ RegResp.err ("Registration deadline has passed") := by
  cases tmpl with
  | none => exact Except.noConfusion h
  | some t =>
    unfold validate_template at h
    dsimp only at h
    split_ifs at h
    · cases Except.error.inj h
      decide
    · revert h
      cases hps : participants_step t data with
      | error r2 =>
        intro h
        cases Except.error.inj h
        rcases participants_step_err t data _ hps with ⟨x, hx⟩ | ⟨m2, hm2, x, hx⟩
        · subst hx; intro hc; exact number_prefix_ne x (RegResp.err.inj hc)
        · subst hm2; subst hx; intro hc; exact participant_prefix_ne x (RegResp.err.inj hc)
      | ok data1 =>
        intro h
        dsimp only at h
        split_ifs at h
        · cases Except.error.inj h
          simp
        · revert h
          cases hef : email_fields_error data1 t.fields with
          | some e =>
            intro h
            cases Except.error.inj h
            rcases email_fields_error_msgs data1 t.fields e hef with ⟨x, hx⟩ | hx
            · subst hx; intro hc; exact invalid_email_prefix_ne x (RegResp.err.inj hc)
            · subst hx; intro hc; exact domain_prefix_ne _ (RegResp.err.inj hc)
          | none => intro h; exact Except.noConfusion h

/-- finish_registration answers ok or errDetails, never a bare err. -/
theorem finish_registration_ne_err (tmpl : Option Template) (uuid : String)
    (data : Reg) (stored : Option (List Reg)) (m : String) :
    (finish_registration tmpl uuid data stored).1 ≠ RegResp.err m := by
  unfold finish_registration
  split <;> simp

/-- Date.before is irreflexive. -/
theorem date_before_irrefl (d : Date) : d.before d = false := by
  simp [Date.before]

/-- The only source of the deadline message in event_gate is a
non-empty, non-TBA, parseable deadline date strictly before today. -/
theorem event_gate_deadline_inv (ev : Event) (today : Date)
    (h : event_gate ev today = some ("Registration deadline has passed")) :
    ∃ di, ev.registration_deadline = some di ∧ di.date ≠ ("") ∧
      py_upper di.date ≠ ("TBA") ∧
      ∃ D, parse_date di.date = some D ∧ D.before today = true := by
  unfold event_gate at h
  split_ifs at h
  · exact absurd (Option.some.inj h) (by decide)
  · exact absurd (Option.some.inj h) (by decide)
  · cases hdl : ev.registration_deadline with
    | none => rw [hdl] at h; exact Option.noConfusion h
    | some di =>
      rw [hdl] at h
      dsimp only at h
      split_ifs at h with h3 h4
      · revert h
        cases hp : parse_date di.date with
        | none => intro h; exact Option.noConfusion h
        | some D =>
          intro h
          dsimp only at h
          split_ifs at h with h5
          exact ⟨di, rfl, h3, h4, D, hp, h5⟩

/-- payment_or_save answers ok, errDetails or payment, never bare err. -/
theorem payment_or_save_ne_err (tmpl : Option Template) (order_result : Option String)
    (uuid : String) (data2 : Reg) (stored : Option (List Reg)) (m : String) :
    (payment_or_save tmpl order_result uuid data2 stored).1 ≠ RegResp.err m := by
  unfold payment_or_save
  cases tmpl with
  | none => exact finish_registration_ne_err _ _ _ _ _
  | some t =>
    dsimp only
    split_ifs
    all_goals try exact finish_registration_ne_err _ _ _ _ _
    · intro hc; exact RegResp.noConfusion hc
    · cases order_result with
      | some oid => intro hc; exact RegResp.noConfusion hc
      | none => intro hc; exact RegResp.noConfusion hc

/-- The registration endpoint can answer with the bare deadline error
only out of the event gate. -/
theorem err_deadline_only (today : Date) (tmpl : Option Template) (event : Option Event)
    (order_result : Option String) (uuid : String) (data : Reg)
    (stored : Option (List Reg))
    (h : (api_register_event today tmpl event order_result uuid data stored).1 =
      RegResp.err ("Registration deadline has passed")) :
    ∃ ev, event = some ev ∧
      event_gate ev today = some ("Registration deadline has passed") := by
  unfold api_register_event at h
  dsimp only at h
  split_ifs at h
  all_goals try (dsimp only at h; exact absurd (RegResp.err.inj h) (domain_prefix_ne _))
  revert h
  cases hvt : validate_template tmpl data with
  | error resp =>
    intro h
    dsimp only at h
    exact absurd h (validate_template_no_deadline tmpl data resp hvt)
  | ok data1 =>
    cases hev : event with
    | none =>
      intro h
      dsimp only at h
      exact absurd h (payment_or_save_ne_err _ _ _ _ _ _)
    | some ev =>
      dsimp only
      cases hgt : event_gate ev today with
      | some msg =>
        intro h
        dsimp only at h
        cases RegResp.err.inj h
        exact ⟨ev, rfl, hgt⟩
      | none =>
        intro h
        dsimp only at h
        exact absurd h (payment_or_save_ne_err _ _ _ _ _ _)

/-- Every required field with a falsy name or blank trimmed value
contributes its label to the missing list. -/
theorem mem_missing_required (data : Reg) (fields : List Field) (f : Field)
    (hf : f ∈ fields) (hreq : f.required = true)
    (hblank : f.name = ("") ∨ py_strip (data.get f.name) = ("")) :
    f.label_or_name ∈ missing_required data fields := by
  unfold missing_required
  refine List.mem_map.mpr ⟨f, List.mem_filter.mpr ⟨hf, ?_⟩, rfl⟩
  simp only [hreq, Bool.true_and, Bool.or_eq_true, decide_eq_true_eq]
  exact hblank

/-- The participant loop reports exactly the first failing slot. -/
theorem validate_participants_first_error (data : Reg) :
    ∀ (k i j : Nat) (m : String), i ≤ j → j < i + k →
      participant_error data j = some m →
      (∀ t2, i ≤ t2 → t2 < j → participant_error data t2 = none) →
      validate_participants data i k = .error m := by
  intro k
  induction k with
  | zero => intro i j m hij hjk _ _; omega
  | succ k2 ih =>
    intro i j m hij hjk hj hmin
    unfold validate_participants
    by_cases hji : j = i
    · subst hji
      rw [hj]
    · have hlt : i < j := lt_of_le_of_ne hij (Ne.symm hji)
      rw [hmin i le_rfl hlt]
      rw [ih (i + 1) j m hlt (by omega) hj (fun t2 ht2 htj => hmin t2 (by omega) htj)]

/-- The eviction pass only collects paths present in the table. -/
theorem collect_unheld_sublist (total : Nat) :
    ∀ (items : LockTable) (removed : Nat),
      List.Sublist (collect_unheld total items removed) (items.map Prod.fst) := by
  intro items
  induction items with
  | nil => intro removed; exact List.nil_sublist _
  | cons e rest ih =>
    intro removed
    obtain ⟨p, held⟩ := e
    unfold collect_unheld
    split_ifs
    · exact List.Sublist.cons p (ih removed)
    · exact List.Sublist.cons₂ p (List.nil_sublist _)
    · exact List.Sublist.cons₂ p (ih (removed + 1))

/-- Every collected path belongs to an unheld entry. -/
theorem collect_unheld_mem (total : Nat) :
    ∀ (items : LockTable) (removed : Nat) (p : String),
      p ∈ collect_unheld total items removed → (p, false) ∈ items := by
  intro items
  induction items with
  | nil => intro removed p h; simp [collect_unheld] at h
  | cons e rest ih =>
    intro removed p h
    obtain ⟨q, held⟩ := e
    unfold collect_unheld at h
    split_ifs at h with h1 h2
    · exact List.mem_cons_of_mem _ (ih removed p h)
    · have hpq : p = q := by simpa using h
      subst hpq
      have hf : held = false := by simpa using h1
      subst hf
      exact List.mem_cons_self _ _
    · rcases List.mem_cons.mp h with hpq | hmem
      · subst hpq
        have hf : held = false := by simpa using h1
        subst hf
        exact List.mem_cons_self _ _
      · exact List.mem_cons_of_mem _ (ih (removed + 1) p hmem)

/-- Under distinct keys, the held flag is a function of the path. -/
theorem key_unique : ∀ (table : LockTable) (a : String) (b c : Bool),
    (table.map Prod.fst).Nodup → (a, b) ∈ table → (a, c) ∈ table → b = c := by
  intro table
  induction table with
  | nil => intro a b c _ hb; simp at hb
  | cons e rest ih =>
    intro a b c hnd hb hc
    rw [List.map_cons, List.nodup_cons] at hnd
    obtain ⟨hnotin, hnd2⟩ := hnd
    rcases List.mem_cons.mp hb with hb1 | hb1 <;> rcases List.mem_cons.mp hc with hc1 | hc1
    · exact congrArg Prod.snd (hb1.trans hc1.symm)
    · rw [← hb1] at hnotin
      exact absurd (List.mem_map_of_mem Prod.fst hc1) (by simpa using hnotin)
    · rw [← hc1] at hnotin
      exact absurd (List.mem_map_of_mem Prod.fst hb1) (by simpa using hnotin)
    · exact ih a b c hnd2 hb1 hc1

/-- A boolean predicate and its negation partition a list count. -/
theorem countP_bool_split (p : String × Bool → Bool) :
    ∀ l : LockTable, l.countP p + l.countP (fun e => !(p e)) = l.length := by
  intro l
  induction l with
  | nil => rfl
  | cons e rest ih =>
    rw [List.countP_cons, List.countP_cons, List.length_cons]
    cases hp : p e <;> simp [hp] <;> omega

/-- The eviction pass either stops early with the table size brought
below half the ceiling, or collects exactly the unheld entries. -/
theorem collect_unheld_spec (total : Nat) :
    ∀ (items : LockTable) (removed : Nat),
      total - (removed + (collect_unheld total items removed).length) <
          _MAX_FILE_LOCKS / 2 ∨
        (collect_unheld total items removed).length =
          items.countP (fun e => !e.2) := by
  intro items
  induction items with
  | nil => intro removed; right; rfl
  | cons e rest ih =>
    intro removed
    obtain ⟨p, held⟩ := e
    unfold collect_unheld
    split_ifs with h1 h2
    · rcases ih removed with h | h
      · left; exact h
      · right; rw [h, List.countP_cons]; simp [h1]
    · left; simpa using h2
    · rcases ih (removed + 1) with h | h
      · left
        rw [List.length_cons]
        omega
      · right
        rw [List.length_cons, h, List.countP_cons]
        have hf : held = false := by simpa using h1
        subst hf
        simp

end Lemmas

/-! ## Claims -/

/-- C6: safe_json_read never raises to its caller: an absent file
yields an empty list, a parse failure recovers from the .backup
sibling when that parses, and total failure yields an empty list
(totality of the embedded function is the never-raises guarantee). -/
theorem C6_safe_json_read (fs : String → FileState) (filepath : String) :
    (fs filepath = .absent → safe_json_read fs filepath = []) ∧
    (∀ l, fs filepath = .valid l → safe_json_read fs filepath = l) ∧
    (∀ l, fs filepath = .invalid → fs (filepath ++ (".backup")) = .valid l →
      safe_json_read fs filepath = l) ∧
    (fs filepath = .invalid → (∀ l, fs (filepath ++ (".backup")) ≠ .valid l) →
      safe_json_read fs filepath = []) := by
  refine ⟨?_, ?_, ?_, ?_⟩
  · intro h; simp [safe_json_read, h]
  · intro l h; simp [safe_json_read, h]
  · intro l h hb; simp [safe_json_read, h, hb]
  · intro h hb
    unfold safe_json_read
    rw [h]
    cases hbk : fs (filepath ++ (".backup")) with
    | absent => rfl
    | invalid => rfl
    | valid l => exact absurd hbk (hb l)

theorem C6_witness :
    fs_example ("f") = .invalid ∧
    fs_example (("f") ++ (".backup")) = .valid [w_reg1] ∧
    safe_json_read fs_example ("f") = [w_reg1] :=
  ⟨by decide, by decide,
    (C6_safe_json_read fs_example ("f")).2.2.1 [w_reg1] (by decide) (by decide)⟩

/-- C2 counterexample: the claim quantifies over every new record whose
submitter email equals a stored one after trimming and lowering, but a
record whose submitter email is empty (equal to an empty stored one) is
appended successfully rather than rejected, because check_duplicates
skips the comparison for a falsy normalised email. -/
theorem C2_counterexample :
    norm_email (({} : Reg).submitter_email) = norm_email (({} : Reg).submitter_email) ∧
    (atomic_add_registration (some [({} : Reg)]) ({} : Reg)
        (some (check_duplicates none))).1.1 = true ∧
    (atomic_add_registration (some [({} : Reg)]) ({} : Reg)
        (some (check_duplicates none))).2 =
      some [({} : Reg), { ({} : Reg) with id := some 2 }] :=
  ⟨rfl, by decide, by decide⟩

/-- C2 (amended): for every registration file and every new record
whose submitter email is non-empty after trimming and equals
(case-insensitively, after trimming) the submitter email of some stored
record, atomic_add_registration with the registration duplicate
predicate fails with the conflict message, leaves the stored list
unchanged, and returns the unmodified list; hence submitting the same
non-empty submitter email twice yields exactly one stored record and a
conflict error on the second attempt. -/
theorem C2_duplicate_rejected (tmpl : Option Template) (l : List Reg) (r : Reg)
    (hne : norm_email r.submitter_email ≠ (""))
    (hdup : ∃ a ∈ l, norm_email a.submitter_email = norm_email r.submitter_email) :
    atomic_add_registration (some l) r (some (check_duplicates tmpl)) =
      ((false, some (("Email already registered: ") ++ norm_email r.submitter_email), l),
        some l) ∧
    ∀ r2 : Reg, norm_email r2.submitter_email = norm_email r.submitter_email →
      atomic_add_registration none r (some (check_duplicates tmpl)) =
        ((true, none, [{ r with id := some 1 }]), some [{ r with id := some 1 }]) ∧
      atomic_add_registration (some [{ r with id := some 1 }]) r2
          (some (check_duplicates tmpl)) =
        ((false, some (("Email already registered: ") ++ norm_email r2.submitter_email),
          [{ r with id := some 1 }]), some [{ r with id := some 1 }]) := by
  constructor
  · have hc := check_duplicates_hit tmpl l r hne hdup
    simp [atomic_add_registration, hc]
  · intro r2 h2
    constructor
    · simp [atomic_add_registration, check_duplicates_nil]
    · have hc2 : check_duplicates tmpl [{ r with id := some 1 }] r2 =
          some (("Email already registered: ") ++ norm_email r2.submitter_email) := by
        refine check_duplicates_hit tmpl _ r2 (by rw [h2]; exact hne) ?_
        exact ⟨{ r with id := some 1 }, by simp, by simpa [norm_email] using h2.symm⟩
      simp [atomic_add_registration, hc2]

theorem C2_witness :
    norm_email (Reg.submitter_email { submitter_email := ("a@kongu.edu") }) ≠ ("") ∧
    (∃ a ∈ [({ submitter_email := ("  A@kongu.edu ") } : Reg)],
      norm_email a.submitter_email =
        norm_email (Reg.submitter_email ({ submitter_email := ("a@kongu.edu") } : Reg))) ∧
    atomic_add_registration (some [({ submitter_email := ("  A@kongu.edu ") } : Reg)])
        ({ submitter_email := ("a@kongu.edu") } : Reg) (some (check_duplicates none)) =
      ((false, some (("Email already registered: ") ++
          norm_email (Reg.submitter_email ({ submitter_email := ("a@kongu.edu") } : Reg))),
        [({ submitter_email := ("  A@kongu.edu ") } : Reg)]),
        some [({ submitter_email := ("  A@kongu.edu ") } : Reg)]) :=
  ⟨by decide, by decide,
    (C2_duplicate_rejected none [{ submitter_email := ("  A@kongu.edu ") }]
      { submitter_email := ("a@kongu.edu") } (by decide) (by decide)).1⟩

/-- C1: starting from an empty or absent file, N sequential
atomic_add_registration calls with pairwise-distinct (normalised)
submitter emails and the duplicate predicate that rejects only equal
emails all succeed, and the stored list holds exactly N records whose
id fields are 1..N, each assigned as list-length + 1 at append time. -/
theorem C1_sequential_ids (inputs : List Reg)
    (hdist : inputs.Pairwise (fun a b =>
      norm_email a.submitter_email ≠ norm_email b.submitter_email)) :
    (add_many none inputs).1 = true ∧
    ((add_many none inputs).2.getD []).length = inputs.length ∧
    ∀ (k : Nat) (hk : k < ((add_many none inputs).2.getD []).length),
      (((add_many none inputs).2.getD []).get ⟨k, hk⟩).id = some (k + 1) := by
  cases inputs with
  | nil =>
    refine ⟨rfl, rfl, ?_⟩
    intro k hk
    simp [add_many] at hk
  | cons r rest =>
    have hstep : atomic_add_registration none r (some (check_duplicates none)) =
        ((true, none, [{ r with id := some 1 }]), some [{ r with id := some 1 }]) := by
      simp [atomic_add_registration, check_duplicates_nil]
    have hpw2 := (List.pairwise_cons.mp hdist).2
    have hhd := (List.pairwise_cons.mp hdist).1
    have hgo := add_many_go rest [{ r with id := some 1 }] hpw2 (by
      intro r2 hr2 _ a ha
      have ha2 : a = { r with id := some 1 } := by simpa using ha
      subst ha2
      simpa using hhd r2 hr2)
    have hform : ({ r with id := some 1 } : Reg) :: with_ids 1 rest =
        with_ids 0 (r :: rest) := by
      simp [with_ids]
    have hall : add_many none (r :: rest) = (true, some (with_ids 0 (r :: rest))) := by
      unfold add_many
      simp only [hstep]
      rw [hgo]
      simp only [List.length_singleton, List.singleton_append, Bool.true_and]
      rw [hform]
    rw [hall]
    refine ⟨rfl, by simpa using with_ids_length 0 (r :: rest), ?_⟩
    intro k hk
    have := with_ids_id 0 (r :: rest) k (by simpa using hk)
    simpa using this

/-- C7: marking attendance updates exactly the first record matching
the credential and (case-insensitively) the email; in participants mode
with a non-empty flags array the aggregate status is entered when all
flags are true, partially_present when some are, not_entered when none
are, and the comment is X/Y participants present with X the number of
true flags and Y the array length; and in every mode entry_time is
stamped with the current timestamp and marked_by with the acting admin
identity. -/
theorem C7_mark_attendance (regs : List Reg) (j : Nat)
    (regid email attendance_type attendance_comment : String)
    (pa : Option (List Bool)) (now marker : String)
    (hj : j < regs.length)
    (hmatch : (regs.get ⟨j, hj⟩).registration_id = regid ∧
      py_lower (regs.get ⟨j, hj⟩).submitter_email = py_lower email)
    (hfirst : ∀ i (hi : i < j),
      ¬ ((regs.get ⟨i, Nat.lt_trans hi hj⟩).registration_id = regid ∧
        py_lower (regs.get ⟨i, Nat.lt_trans hi hj⟩).submitter_email = py_lower email)) :
    mark_entry_update regs regid email attendance_type attendance_comment pa now marker =
      some (regs.set j
        (apply_mark (regs.get ⟨j, hj⟩) attendance_type attendance_comment pa now marker)) ∧
    (∀ flags : List Bool, flags ≠ [] →
      (apply_mark (regs.get ⟨j, hj⟩) ("participants") attendance_comment (some flags)
          now marker).attendance_status =
        (if flags.all (fun b => b) then ("entered")
         else if flags.any (fun b => b) then ("partially_present")
         else ("not_entered")) ∧
      (apply_mark (regs.get ⟨j, hj⟩) ("participants") attendance_comment (some flags)
          now marker).attendance_comment =
        Nat.repr (flags.countP (fun b => b)) ++ ("/") ++ Nat.repr flags.length ++
          (" participants present") ∧
      (apply_mark (regs.get ⟨j, hj⟩) ("participants") attendance_comment (some flags)
          now marker).participant_attendance = some flags) ∧
    (apply_mark (regs.get ⟨j, hj⟩) attendance_type attendance_comment pa
        now marker).entry_time = some now ∧
    (apply_mark (regs.get ⟨j, hj⟩) attendance_type attendance_comment pa
        now marker).marked_by = some marker := by
  refine ⟨mark_entry_update_set regid email attendance_type attendance_comment pa
    now marker regs j hj hmatch hfirst, ?_, ?_, ?_⟩
  · intro flags hflags
    have hcond : (("participants") : String) = ("participants") ∧
        (some flags).getD [] ≠ [] := ⟨rfl, by simpa using hflags⟩
    have hstat : (apply_mark (regs.get ⟨j, hj⟩) ("participants") attendance_comment
        (some flags) now marker).attendance_status =
        (if flags.countP (fun p => p) = flags.length then ("entered")
         else if flags.countP (fun p => p) > 0 then ("partially_present")
         else ("not_entered")) := by
      unfold apply_mark
      rw [if_pos hcond]
      rfl
    have h1 : (flags.countP (fun p => p) = flags.length) ↔
        (flags.all (fun b => b) = true) := by
      rw [List.countP_eq_length, List.all_eq_true]
    have h2 : (flags.countP (fun p => p) > 0) ↔ (flags.any (fun b => b) = true) := by
      constructor
      · intro h
        rw [List.any_eq_true]
        simpa using List.countP_pos_iff.mp h
      · intro h
        rw [List.any_eq_true] at h
        exact List.countP_pos_iff.mpr (by simpa using h)
    refine ⟨?_, ?_, ?_⟩
    · rw [hstat]
      exact if_congr h1 rfl (if_congr h2 rfl rfl)
    · unfold apply_mark
      rw [if_pos hcond]
      rfl
    · unfold apply_mark
      rw [if_pos hcond]
      rfl
  · unfold apply_mark
    split <;> rfl
  · unfold apply_mark
    split <;> rfl

/-- C9: an event whose registration_deadline.date is neither TBA nor
parseable as a calendar date is never rejected on deadline grounds: the
ValueError is swallowed and the endpoint behaves exactly as if the
event had no deadline at all. -/
theorem C9_bad_deadline_ignored (today : Date) (tmpl : Option Template)
    (order_result : Option String) (uuid : String) (data : Reg)
    (stored : Option (List Reg)) (ev : Event) (di : Deadline)
    (hdl : ev.registration_deadline = some di)
    (hparse : parse_date di.date = none) :
    api_register_event today tmpl (some ev) order_result uuid data stored =
      api_register_event today tmpl
        (some { ev with registration_deadline := none }) order_result uuid data stored := by
  have hgate : event_gate ev today =
      event_gate { ev with registration_deadline := none } today := by
    unfold event_gate
    dsimp only
    rw [hdl]
    dsimp only
    rw [hparse]
    split_ifs <;> rfl
  unfold api_register_event
  dsimp only
  rw [hgate]

theorem C9_witness :
    parse_date (Deadline.date { date := ("soon") }) = none ∧
    api_register_event ⟨2025, 1, 10⟩ none
        (some { registration_type := ("internal"),
                registration_deadline := some { date := ("soon") } }) none ("u") w_reg1 none =
      api_register_event ⟨2025, 1, 10⟩ none
        (some { registration_type := ("internal"), registration_deadline := none })
        none ("u") w_reg1 none :=
  ⟨by decide,
    C9_bad_deadline_ignored ⟨2025, 1, 10⟩ none none ("u") w_reg1 none
      { registration_type := ("internal"), registration_deadline := some { date := ("soon") } }
      { date := ("soon") } rfl (by decide)⟩

/-- C10: a template with payment_enabled true but payment_amount
absent (default 0), zero, or negative skips the payment branch
entirely: the registration is persisted immediately through
atomic_add_registration, and the stored record carries payment_status
pending (not not_required), although no payment order exists. -/
theorem C10_payment_enabled_zero_amount (today : Date) (event : Option Event)
    (order_result : Option String) (uuid : String) (t : Template)
    (data data1 : Reg) (stored : Option (List Reg))
    (hsub : py_strip data.submitter_email ≠ (""))
    (hfmt : email_matches (py_strip data.submitter_email) = true)
    (hdom : domain_allowed (email_domain (py_strip data.submitter_email)) = true)
    (hval : validate_template (some t) data = .ok data1)
    (hgate : (match event with | some ev => event_gate ev today | none => none) = none)
    (hpe : t.payment_enabled = true)
    (hamt : t.payment_amount ≤ 0)
    (hdup : check_duplicates (some t) (stored.getD [])
      (build_registration (some t) uuid data1) = none) :
    api_register_event today (some t) event order_result uuid data stored =
      (.ok uuid, some (stored.getD [] ++
        [{ build_registration (some t) uuid data1 with
            id := some ((stored.getD []).length + 1) }])) ∧
    (build_registration (some t) uuid data1).payment_status = ("pending") := by
  have hamt2 : ¬ (t.payment_amount > 0) := not_lt.mpr hamt
  constructor
  · simp only [api_register_event, payment_or_save, hval, hgate, hpe]
    rw [if_neg hsub]
    rw [if_neg (show ¬ email_matches (py_strip data.submitter_email) = false by
      simp [hfmt])]
    rw [if_neg (show ¬ domain_allowed (email_domain (py_strip data.submitter_email)) = false by
      simp [hdom])]
    simp only [if_true, if_neg hamt2]
    simp [finish_registration, atomic_add_registration, hdup]
  · simp [build_registration, hpe]

/-- C4: with a parseable deadline date D, an attempt on day D is never
rejected with the deadline error; an attempt on any later day, when it
passes email and template validation against an internal, open event,
is rejected with exactly the deadline error and no write; and a
deadline literal TBA (case-insensitive) is never rejected on deadline
grounds. -/
theorem C4_deadline_enforcement (today : Date) (tmpl : Option Template)
    (order_result : Option String) (uuid : String) (data : Reg)
    (stored : Option (List Reg)) (ev : Event) (di : Deadline) (D : Date)
    (hdl : ev.registration_deadline = some di) :
    (parse_date di.date = some D → today = D →
      (api_register_event today tmpl (some ev) order_result uuid data stored).1 ≠
        RegResp.err ("Registration deadline has passed")) ∧
    (py_upper di.date = ("TBA") →
      (api_register_event today tmpl (some ev) order_result uuid data stored).1 ≠
        RegResp.err ("Registration deadline has passed")) ∧
    (parse_date di.date = some D → D.before today = true → py_upper di.date ≠ ("TBA") →
      py_strip data.submitter_email ≠ ("") →
      email_matches (py_strip data.submitter_email) = true →
      domain_allowed (email_domain (py_strip data.submitter_email)) = true →
      ∀ data1, validate_template tmpl data = .ok data1 →
      ev.registration_type = ("internal") →
      ev.allow_registration ≠ some false →
      api_register_event today tmpl (some ev) order_result uuid data stored =
        (.err ("Registration deadline has passed"), stored)) := by
  refine ⟨?_, ?_, ?_⟩
  · intro hp ht h
    obtain ⟨ev2, hev2, hg⟩ := err_deadline_only _ _ _ _ _ _ _ h
    cases Option.some.inj hev2
    obtain ⟨di2, hdl2, hne2, htba2, D2, hp2, hb2⟩ := event_gate_deadline_inv _ today hg
    rw [hdl] at hdl2
    cases Option.some.inj hdl2
    rw [hp] at hp2
    cases Option.some.inj hp2
    subst ht
    rw [date_before_irrefl] at hb2
    exact Bool.noConfusion hb2
  · intro htba h
    obtain ⟨ev2, hev2, hg⟩ := err_deadline_only _ _ _ _ _ _ _ h
    cases Option.some.inj hev2
    obtain ⟨di2, hdl2, hne2, htba2, D2, hp2, hb2⟩ := event_gate_deadline_inv _ today hg
    rw [hdl] at hdl2
    cases Option.some.inj hdl2
    exact htba2 htba
  · intro hp hb htba hsub hfmt hdom data1 hval htype hallow
    have hne : di.date ≠ ("") := by
      intro h0
      rw [h0] at hp
      exact Option.noConfusion (hp.symm.trans (rfl : parse_date ("") = none))
    have hgev : event_gate ev today = some ("Registration deadline has passed") := by
      unfold event_gate
      rw [if_neg (show ¬ ev.registration_type ≠ ("internal") by simp [htype])]
      rw [if_neg hallow, hdl]
      dsimp only
      rw [if_pos hne, if_pos htba, hp]
      dsimp only
      rw [if_pos hb]
    unfold api_register_event
    dsimp only
    rw [if_neg hsub]
    rw [if_neg (show ¬ email_matches (py_strip data.submitter_email) = false by
      simp [hfmt])]
    rw [if_neg (show ¬ domain_allowed (email_domain (py_strip data.submitter_email)) = false by
      simp [hdom])]
    rw [hval]
    dsimp only
    rw [hgev]

theorem C4_witness :
    w_ev4.registration_deadline = some { date := ("2025-01-10") } ∧
    parse_date ("2025-01-10") = some ⟨2025, 1, 10⟩ ∧
    (api_register_event ⟨2025, 1, 10⟩ none (some w_ev4) none ("u") w_reg1 none).1 ≠
      RegResp.err ("Registration deadline has passed") ∧
    api_register_event ⟨2025, 1, 11⟩ none (some w_ev4) none ("u") w_reg1 none =
      (.err ("Registration deadline has passed"), none) :=
  ⟨rfl, by decide,
    (C4_deadline_enforcement ⟨2025, 1, 10⟩ none none ("u") w_reg1 none w_ev4
      { date := ("2025-01-10") } ⟨2025, 1, 10⟩ rfl).1 (by decide) rfl,
    (C4_deadline_enforcement ⟨2025, 1, 11⟩ none none ("u") w_reg1 none w_ev4
      { date := ("2025-01-10") } ⟨2025, 1, 10⟩ rfl).2.2 (by decide) (by decide)
      (by decide) (by decide) (by decide) (by decide) w_reg1 rfl rfl (by decide)⟩

/-- C5: when a submission reaches custom-field validation, ALL missing
required labels (from the current custom_fields list and the legacy
fields list) are reported together in one rejection; whereas participant
validation stops at the first slot with a missing name, roll or invalid
email and reports only that slot. -/
theorem C5_validation_reporting (today : Date) (event : Option Event)
    (order_result : Option String) (uuid : String) (t : Template) (data : Reg)
    (stored : Option (List Reg))
    (hsub : py_strip data.submitter_email ≠ (""))
    (hfmt : email_matches (py_strip data.submitter_email) = true)
    (hdom : domain_allowed (email_domain (py_strip data.submitter_email)) = true)
    (hact : t.active = true) :
    (∀ data1, participants_step t data = .ok data1 →
      missing_required data1 t.custom_fields ++ missing_required data1 t.fields ≠ [] →
      api_register_event today (some t) event order_result uuid data stored =
        (.errMissing ("Missing required fields")
          (missing_required data1 t.custom_fields ++ missing_required data1 t.fields),
          stored) ∧
      ∀ f ∈ t.custom_fields ++ t.fields, f.required = true →
        (f.name = ("") ∨ py_strip (data1.get f.name) = ("")) →
        f.label_or_name ∈
          missing_required data1 t.custom_fields ++ missing_required data1 t.fields) ∧
    (t.min_participants ≠ 0 → t.max_participants ≠ 0 →
      ¬ (data.num_participants.getD t.min_participants < t.min_participants ∨
         data.num_participants.getD t.min_participants > t.max_participants) →
      ∀ j m, 1 ≤ j → j ≤ data.num_participants.getD t.min_participants →
        participant_error data j = some m →
        (∀ i, 1 ≤ i → i < j → participant_error data i = none) →
        api_register_event today (some t) event order_result uuid data stored =
          (.err m, stored)) := by
  constructor
  · intro data1 hps hmiss
    have hvt : validate_template (some t) data =
        .error (.errMissing ("Missing required fields")
          (missing_required data1 t.custom_fields ++ missing_required data1 t.fields)) := by
      unfold validate_template
      dsimp only
      rw [if_neg (show ¬ t.active = false by simp [hact])]
      rw [hps]
      dsimp only
      rw [if_pos hmiss]
    constructor
    · unfold api_register_event
      dsimp only
      rw [if_neg hsub]
      rw [if_neg (show ¬ email_matches (py_strip data.submitter_email) = false by
        simp [hfmt])]
      rw [if_neg (show ¬ domain_allowed (email_domain (py_strip data.submitter_email)) = false by
        simp [hdom])]
      rw [hvt]
    · intro f hf hreq hblank
      rcases List.mem_append.mp hf with h | h
      · exact List.mem_append.mpr
          (Or.inl (mem_missing_required data1 t.custom_fields f h hreq hblank))
      · exact List.mem_append.mpr
          (Or.inr (mem_missing_required data1 t.fields f h hreq hblank))
  · intro hmin hmax hrange j m hj1 hjn hjm hfirst
    have hvp : validate_participants data 1
        (data.num_participants.getD t.min_participants) = .error m :=
      validate_participants_first_error data _ 1 j m hj1 (by omega) hjm
        (fun t2 h1 h2 => hfirst t2 h1 h2)
    have hps : participants_step t data = .error (.err m) := by
      unfold participants_step
      rw [if_pos ⟨hmin, hmax⟩]
      dsimp only
      rw [if_neg hrange, hvp]
    have hvt : validate_template (some t) data = .error (.err m) := by
      unfold validate_template
      dsimp only
      rw [if_neg (show ¬ t.active = false by simp [hact]), hps]
    unfold api_register_event
    dsimp only
    rw [if_neg hsub]
    rw [if_neg (show ¬ email_matches (py_strip data.submitter_email) = false by
      simp [hfmt])]
    rw [if_neg (show ¬ domain_allowed (email_domain (py_strip data.submitter_email)) = false by
      simp [hdom])]
    rw [hvt]

theorem C5_witness :
    participants_step w_t5 w_reg1 = .ok w_reg1 ∧
    missing_required w_reg1 w_t5.custom_fields ++ missing_required w_reg1 w_t5.fields ≠ [] ∧
    api_register_event ⟨2025, 1, 1⟩ (some w_t5) none none ("u") w_reg1 none =
      (.errMissing ("Missing required fields")
        (missing_required w_reg1 w_t5.custom_fields ++
          missing_required w_reg1 w_t5.fields), none) :=
  ⟨rfl, by decide,
    ((C5_validation_reporting ⟨2025, 1, 1⟩ none none ("u") w_t5 w_reg1 none
      (by decide) (by decide) (by decide) rfl).1 w_reg1 rfl (by decide)).1⟩

/-- C3: with payment_enabled and a positive payment_amount the
registration endpoint never writes to the registration file (every path
of the payment branch returns without saving); and payment_verify
appends only when the recomputed HMAC signature over orderId|paymentId
equals the claimed one, the gateway status is captured, the gateway
order id matches, and the gateway amount equals the expected amount
converted to minor units (to_minor being the program's own
int-of-float-times-100 conversion, abstracted as a parameter like the
HMAC primitive), while each single failing check rejects with its
specific reason and leaves the file unchanged.  Quantifying over
to_minor makes the clauses hold for the actual float conversion in
particular. -/
theorem C3_payment_gate (today : Date) (t : Template) (event : Option Event)
    (order_result : Option String) (uuid : String) (data : Reg)
    (stored : Option (List Reg)) (hmac : String → String → String)
    (to_minor : ℚ → Int) (key : String)
    (pid oid sig : String) (rdata : Option Reg) (rfile : Option String)
    (gw : Option GatewayPayment) (fuuid : String) (stored2 : Option (List Reg))
    (hpe : t.payment_enabled = true) (hamt : 0 < t.payment_amount) :
    (api_register_event today (some t) event order_result uuid data stored).2 = stored ∧
    ((payment_verify hmac to_minor key pid oid sig rdata rfile gw fuuid stored2).2 ≠ stored2 →
      pid ≠ ("") ∧ oid ≠ ("") ∧ sig ≠ ("") ∧
      hmac key (oid ++ ("|") ++ pid) = sig ∧
      ∃ pd, gw = some pd ∧ pd.status = ("captured") ∧ pd.order_id = oid ∧
        ∃ rd, rdata = some rd ∧ to_minor rd.payment_amount = pd.amount) ∧
    (∀ rd, rdata = some rd → pid ≠ ("") → oid ≠ ("") → sig ≠ ("") →
      (hmac key (oid ++ ("|") ++ pid) ≠ sig →
        payment_verify hmac to_minor key pid oid sig rdata rfile gw fuuid stored2 =
          (.err ("Invalid payment signature"), stored2)) ∧
      (∀ pd, gw = some pd → hmac key (oid ++ ("|") ++ pid) = sig →
        (pd.status ≠ ("captured") →
          payment_verify hmac to_minor key pid oid sig rdata rfile gw fuuid stored2 =
            (.err ("Payment not captured"), stored2)) ∧
        (pd.status = ("captured") → pd.order_id ≠ oid →
          payment_verify hmac to_minor key pid oid sig rdata rfile gw fuuid stored2 =
            (.err ("Order ID mismatch"), stored2)) ∧
        (pd.status = ("captured") → pd.order_id = oid →
          to_minor rd.payment_amount ≠ pd.amount →
          payment_verify hmac to_minor key pid oid sig rdata rfile gw fuuid stored2 =
            (.err ("Payment amount mismatch"), stored2)))) := by
  refine ⟨?_, ?_, ?_⟩
  · unfold api_register_event
    dsimp only
    split_ifs
    any_goals rfl
    cases hvt : validate_template (some t) data with
    | error resp => rfl
    | ok data1 =>
      cases (match event with | some ev => event_gate ev today | none => none) with
      | some msg => rfl
      | none =>
        unfold payment_or_save
        dsimp only
        rw [if_pos hpe, if_pos hamt]
        split_ifs
        · rfl
        · cases order_result <;> rfl
  · intro hw
    unfold payment_verify at hw
    by_cases h1 : pid = ("") ∨ oid = ("") ∨ sig = ("")
    · rw [if_pos h1] at hw; exact absurd rfl hw
    · rw [if_neg h1] at hw
      push_neg at h1
      obtain ⟨hpid, hoid, hsig⟩ := h1
      cases hrd : rdata with
      | none => rw [hrd] at hw; exact absurd rfl hw
      | some rd =>
        rw [hrd] at hw
        dsimp only at hw
        by_cases h2 : hmac key (oid ++ ("|") ++ pid) ≠ sig
        · rw [if_pos h2] at hw; exact absurd rfl hw
        · rw [if_neg h2] at hw
          push_neg at h2
          cases hgw : gw with
          | none => rw [hgw] at hw; exact absurd rfl hw
          | some pd =>
            rw [hgw] at hw
            dsimp only at hw
            by_cases h3 : pd.status ≠ ("captured")
            · rw [if_pos h3] at hw; exact absurd rfl hw
            · rw [if_neg h3] at hw
              push_neg at h3
              by_cases h4 : pd.order_id ≠ oid
              · rw [if_pos h4] at hw; exact absurd rfl hw
              · rw [if_neg h4] at hw
                push_neg at h4
                by_cases h5 : to_minor rd.payment_amount ≠ pd.amount
                · rw [if_pos h5] at hw; exact absurd rfl hw
                · push_neg at h5
                  exact ⟨hpid, hoid, hsig, h2, pd, rfl, h3, h4, rd, rfl, h5⟩
  · intro rd hrd hpid hoid hsig
    have hnotmiss : ¬ (pid = ("") ∨ oid = ("") ∨ sig = ("")) := by
      push_neg
      exact ⟨hpid, hoid, hsig⟩
    refine ⟨?_, ?_⟩
    · intro hsig2
      unfold payment_verify
      rw [if_neg hnotmiss, hrd]
      dsimp only
      rw [if_pos hsig2]
    · intro pd hgw hsigok
      refine ⟨?_, ?_, ?_⟩
      · intro hst
        unfold payment_verify
        rw [if_neg hnotmiss, hrd]
        dsimp only
        rw [if_neg (not_not_intro hsigok), hgw]
        dsimp only
        rw [if_pos hst]
      · intro hst hord
        unfold payment_verify
        rw [if_neg hnotmiss, hrd]
        dsimp only
        rw [if_neg (not_not_intro hsigok), hgw]
        dsimp only
        rw [if_neg (not_not_intro hst), if_pos hord]
      · intro hst hord hamt2
        unfold payment_verify
        rw [if_neg hnotmiss, hrd]
        dsimp only
        rw [if_neg (not_not_intro hsigok), hgw]
        dsimp only
        rw [if_neg (not_not_intro hst), if_neg (not_not_intro hord), if_pos hamt2]

theorem C3_witness :
    w_t3.payment_enabled = true ∧ 0 < w_t3.payment_amount ∧
    (api_register_event ⟨2025, 1, 1⟩ (some w_t3) none none ("u") w_reg1 none).2 = none ∧
    payment_verify (fun _ m => m) (fun _ => 0) ("k") ("P1") ("O1") ("BAD")
        (some w_reg1) none none ("f") none =
      (.err ("Invalid payment signature"), none) :=
  have h := C3_payment_gate ⟨2025, 1, 1⟩ w_t3 none none ("u") w_reg1 none
    (fun _ m => m) (fun _ => 0) ("k") ("P1") ("O1") ("BAD") (some w_reg1) none none
    ("f") none rfl (by decide)
  ⟨rfl, by decide, h.1,
    (h.2.2 w_reg1 rfl (by decide) (by decide) (by decide)).1 (by decide)⟩

/-- C8 (amended): a get_file_lock call on a table with distinct paths
keeps the table within max(its previous size, max(_MAX_FILE_LOCKS,
held + 1)) entries, where held counts locks currently held; in
particular the _MAX_FILE_LOCKS ceiling is preserved whenever fewer
than _MAX_FILE_LOCKS locks are held, and only entries whose locks are
not currently held are ever evicted. -/
theorem C8_lock_table_bound (table : LockTable) (filepath : String)
    (hnodup : (table.map Prod.fst).Nodup) :
    (get_file_lock_table table filepath).length ≤
      max table.length (max _MAX_FILE_LOCKS (table.countP (fun e => e.2) + 1)) ∧
    (table.length ≤ _MAX_FILE_LOCKS → table.countP (fun e => e.2) < _MAX_FILE_LOCKS →
      (get_file_lock_table table filepath).length ≤ _MAX_FILE_LOCKS) ∧
    (∀ e ∈ table, e ∉ get_file_lock_table table filepath → e.2 = false) := by
  have hmaxval : _MAX_FILE_LOCKS = 100 := rfl
  unfold get_file_lock_table
  by_cases hc : table.any (fun e => decide (e.1 = filepath)) = true
  · rw [if_pos hc]
    exact ⟨le_max_left _ _, fun h1 _ => h1, fun e he hne => absurd he hne⟩
  · rw [if_neg hc]
    by_cases hlen : table.length ≥ _MAX_FILE_LOCKS
    · rw [if_pos hlen]
      dsimp only
      set R := collect_unheld table.length table 0 with hRdef
      have hsub := collect_unheld_sublist table.length table 0
      rw [← hRdef] at hsub
      have hqp : (fun e : String × Bool => decide (e.1 ∉ R)) =
          (fun e : String × Bool => !decide (e.1 ∈ R)) := by
        funext e
        exact decide_not
      have hsplit : table.countP (fun e => decide (e.1 ∈ R)) +
          table.countP (fun e => !decide (e.1 ∈ R)) = table.length :=
        countP_bool_split _ table
      have hfl : (table.filter (fun e => decide (e.1 ∉ R))).length =
          table.length - table.countP (fun e => decide (e.1 ∈ R)) := by
        rw [← List.countP_eq_length_filter, hqp]
        omega
      have hcnt : R.length ≤ table.countP (fun e => decide (e.1 ∈ R)) := by
        have h1 : (table.map Prod.fst).countP (fun a => decide (a ∈ R)) =
            table.countP (fun e => decide (e.1 ∈ R)) := by
          rw [List.countP_map]
          rfl
        have h2 : R.countP (fun a => decide (a ∈ R)) ≤
            (table.map Prod.fst).countP (fun a => decide (a ∈ R)) :=
          hsub.countP_le _
        have h3 : R.countP (fun a => decide (a ∈ R)) = R.length :=
          List.countP_eq_length.mpr (fun a ha => by simpa using ha)
        omega
      have hsplit2 : table.countP (fun e => e.2) +
          table.countP (fun e => !e.2) = table.length :=
        countP_bool_split _ table
      have hhalf : _MAX_FILE_LOCKS / 2 = 50 := rfl
      have hkey : (table.filter (fun e => decide (e.1 ∉ R))).length + 1 ≤
          max _MAX_FILE_LOCKS (table.countP (fun e => e.2) + 1) := by
        rcases collect_unheld_spec table.length table 0 with hsp | hsp
        · rw [← hRdef, hhalf] at hsp
          rw [hfl]
          omega
        · rw [← hRdef] at hsp
          rw [hfl]
          omega
      refine ⟨?_, ?_, ?_⟩
      · rw [List.length_append, List.length_singleton]
        omega
      · intro h1 h2
        rw [List.length_append, List.length_singleton]
        omega
      · intro e he hne
        clear hkey hsplit hsplit2 hfl hcnt
        have hemem : e.1 ∈ R := by
          by_contra hnotin
          exact hne (List.mem_append.mpr (Or.inl
            (List.mem_filter.mpr ⟨he, by simpa using hnotin⟩)))
        have hfent : (e.1, false) ∈ table :=
          collect_unheld_mem table.length table 0 e.1 (hRdef ▸ hemem)
        exact key_unique table e.1 e.2 false hnodup (by rw [Prod.mk.eta]; exact he) hfent
    · rw [if_neg hlen]
      refine ⟨?_, ?_, ?_⟩
      · rw [List.length_append, List.length_singleton]
        omega
      · intro h1 h2
        rw [List.length_append, List.length_singleton]
        omega
      · intro e he hne
        exact absurd (List.mem_append.mpr (Or.inl he)) hne

/-- C8 counterexample: a table already holding _MAX_FILE_LOCKS
currently-held locks (reachable by 100 get_file_lock calls each
followed by an acquire) grows beyond the ceiling on the next fresh
path, because the eviction pass only removes unheld entries; so the
table size is not bounded by _MAX_FILE_LOCKS unconditionally. -/
theorem C8_counterexample :
    C8_table.length = _MAX_FILE_LOCKS ∧
    (get_file_lock_table C8_table ("q")).length = _MAX_FILE_LOCKS + 1 :=
  ⟨by decide, by decide⟩

theorem C8_witness :
    (([(("a"), true), (("b"), false)] : LockTable).map Prod.fst).Nodup ∧
    (get_file_lock_table [(("a"), true), (("b"), false)] ("c")).length ≤
      max ([(("a"), true), (("b"), false)] : LockTable).length
        (max _MAX_FILE_LOCKS
          (([(("a"), true), (("b"), false)] : LockTable).countP (fun e => e.2) + 1)) :=
  ⟨by decide, (C8_lock_table_bound [(("a"), true), (("b"), false)] ("c") (by decide)).1⟩

theorem C10_witness :
    w_t10.payment_enabled = true ∧ w_t10.payment_amount ≤ 0 ∧
    api_register_event ⟨2025, 1, 1⟩ (some w_t10) none none ("u") w_reg1 none =
      (.ok ("u"), some [{ build_registration (some w_t10) ("u") w_reg1 with id := some 1 }]) ∧
    (build_registration (some w_t10) ("u") w_reg1).payment_status = ("pending") :=
  have h := C10_payment_enabled_zero_amount ⟨2025, 1, 1⟩ none none ("u") w_t10
    w_reg1 w_reg1 none (by decide) (by decide) (by decide) rfl rfl rfl
    (by decide) (by decide)
  ⟨rfl, by decide, h.1, h.2⟩

theorem C7_witness :
    (([w_mark_reg].get ⟨0, by decide⟩).registration_id = ("RID1") ∧
      py_lower ([w_mark_reg].get ⟨0, by decide⟩).submitter_email = py_lower w_email1) ∧
    mark_entry_update [w_mark_reg] ("RID1") w_email1 ("participants") ("")
        (some [true, false]) ("t0") ("admin") =
      some ([w_mark_reg].set 0 (apply_mark ([w_mark_reg].get ⟨0, by decide⟩)
        ("participants") ("") (some [true, false]) ("t0") ("admin"))) ∧
    (apply_mark ([w_mark_reg].get ⟨0, by decide⟩) ("participants") ("")
        (some [true, false]) ("t0") ("admin")).attendance_status = ("partially_present") :=
  ⟨⟨by decide, by decide⟩,
    (C7_mark_attendance [w_mark_reg] 0 ("RID1") w_email1 ("participants") ("")
      (some [true, false]) ("t0") ("admin") (by decide) ⟨by decide, by decide⟩
      (fun i hi => absurd hi (Nat.not_lt_zero i))).1,
    ((C7_mark_attendance [w_mark_reg] 0 ("RID1") w_email1 ("participants") ("")
      (some [true, false]) ("t0") ("admin") (by decide) ⟨by decide, by decide⟩
      (fun i hi => absurd hi (Nat.not_lt_zero i))).2.1 [true, false]
        (by decide)).1.trans (by decide)⟩

theorem C1_witness :
    ([w_reg1, w_reg2].Pairwise (fun a b =>
      norm_email a.submitter_email ≠ norm_email b.submitter_email)) ∧
    (add_many none [w_reg1, w_reg2]).1 = true ∧
    ((add_many none [w_reg1, w_reg2]).2.getD []).length = 2 :=
  ⟨by decide, (C1_sequential_ids [w_reg1, w_reg2] (by decide)).1,
    (C1_sequential_ids [w_reg1, w_reg2] (by decide)).2.1⟩

end AICC
